import Mathlib

/-!
Verification development for the webhook helper module of the
webcompat-metrics-server repository (`ochazuke/webhook/helpers.py`).

The Python module is shallowly embedded: dictionaries become association
lists over a small `PyVal` type, fallible subscripting returns `Except`,
the SQLAlchemy session becomes an explicit `Store` with a
stage-commit-or-rollback step, and `hashlib.sha1` / `hmac` are
implemented bit-for-bit over `Nat` with explicit reduction modulo 2^32.
-/

namespace Ochazuke

/-! ## Python value model -/

/-- Python exceptions that the analysed code paths can raise. -/
inductive PyErr where
  | keyError (key : String)
  | valueError
  | typeError
  | attributeError
deriving DecidableEq, Repr

/-- A small model of the Python/JSON values the webhook payloads carry.
Dictionaries are association lists (keys are unique in all inputs used). -/
inductive PyVal where
  | none : PyVal
  | str : String → PyVal
  | int : Int → PyVal
  | bool : Bool → PyVal
  | dict : List (String × PyVal) → PyVal

/-- Python dictionaries as association lists. -/
abbrev PyDict := List (String × PyVal)

/-- Python truthiness for the values the module inspects. -/
def truthy : PyVal → Bool
  | PyVal.none => false
  | PyVal.str s => s ≠ ""
  | PyVal.int n => n ≠ 0
  | PyVal.bool b => b
  | PyVal.dict d => !d.isEmpty

/-- Model of `d.get(k)`: the value at `k`, or Python `None` when absent. -/
def pyGet (d : PyDict) (k : String) : PyVal :=
  (List.lookup k d).getD PyVal.none

/-- Model of `d[k]` on a dictionary: `KeyError` when `k` is absent. -/
def pySub (d : PyDict) (k : String) : Except PyErr PyVal :=
  match List.lookup k d with
  | some v => Except.ok v
  | Option.none => Except.error (PyErr.keyError k)

/-- Model of `v[k]`: subscripting a non-dictionary raises `TypeError`. -/
def PyVal.idx (v : PyVal) (k : String) : Except PyErr PyVal :=
  match v with
  | PyVal.dict d => pySub d k
  | _ => Except.error PyErr.typeError

/-- Model of `v.get(k)`: calling `.get` on a non-dictionary raises
`AttributeError`. -/
def PyVal.attrGet (v : PyVal) (k : String) : Except PyErr PyVal :=
  match v with
  | PyVal.dict d => Except.ok (pyGet d k)
  | _ => Except.error PyErr.attributeError

/-- Model of a string equality test `v == lit` where `lit` is a Python
string literal. -/
def pyIsStr (v : PyVal) (lit : String) : Bool :=
  match v with
  | PyVal.str s => s == lit
  | _ => false

/-- Model of the SQL equality used by `Query.filter_by`: a stored column
value compares equal to a bound parameter only when both are the same
scalar; in particular a dictionary parameter matches no stored text. -/
def sqlEq : PyVal → PyVal → Bool
  | PyVal.str a, PyVal.str b => a == b
  | PyVal.int a, PyVal.int b => a == b
  | PyVal.bool a, PyVal.bool b => a == b
  | _, _ => false

/-! ## SHA-1 and HMAC-SHA1 (model of `hashlib.sha1` and `hmac`)

Bytes are `Nat`s below 256; 32-bit words are `Nat`s reduced mod 2^32. -/

/-- Reduce a `Nat` to a 32-bit word. -/
def w32 (n : Nat) : Nat := n % 4294967296

/-- Left-rotation of a 32-bit word by `b` bits. -/
def rotl (b n : Nat) : Nat :=
  w32 (Nat.lor (Nat.shiftLeft n b) (Nat.shiftRight n (32 - b)))

/-- Big-endian 8-byte encoding of a length in bits. -/
def be64 (n : Nat) : List Nat :=
  (List.range 8).map (fun i => Nat.shiftRight n (8 * (7 - i)) % 256)

/-- SHA-1 message padding: append 0x80, zero-pad to 56 mod 64, then the
message length in bits as 8 big-endian bytes. -/
def sha1Pad (msg : List Nat) : List Nat :=
  let len := msg.length
  let k := (120 - ((len + 1) % 64)) % 64
  msg ++ [128] ++ List.replicate k 0 ++ be64 (8 * len)

/-- Split a padded message into 64-byte blocks. -/
def chunks64 (l : List Nat) : List (List Nat) :=
  (List.range (l.length / 64)).map (fun i => ((l.drop (64 * i)).take 64))

/-- The 16 big-endian 32-bit words of one 64-byte block. -/
def blockWords (block : List Nat) : List Nat :=
  (List.range 16).map (fun i =>
    block.getD (4 * i) 0 * 16777216 + block.getD (4 * i + 1) 0 * 65536 +
    block.getD (4 * i + 2) 0 * 256 + block.getD (4 * i + 3) 0)

/-- Extend 16 message words to the 80 words of the SHA-1 schedule. -/
def extendWords (ws : List Nat) : List Nat :=
  (List.range 64).foldl
    (fun acc _ =>
      let n := acc.length
      let x := Nat.xor (Nat.xor (acc.getD (n - 3) 0) (acc.getD (n - 8) 0))
        (Nat.xor (acc.getD (n - 14) 0) (acc.getD (n - 16) 0))
      acc ++ [rotl 1 x])
    ws

/-- The SHA-1 state: five 32-bit words. -/
abbrev Sha1State := Nat × Nat × Nat × Nat × Nat

/-- SHA-1 compression of one 64-byte block into the running state. -/
def sha1Block (h : Sha1State) (block : List Nat) : Sha1State :=
  let ws := extendWords (blockWords block)
  let (h0, h1, h2, h3, h4) := h
  let fin := (List.range 80).foldl
    (fun st i =>
      let (a, b, c, d, e) := st
      let f :=
        if i < 20 then Nat.lor (Nat.land b c) (Nat.land (4294967295 - b) d)
        else if i < 40 then Nat.xor (Nat.xor b c) d
        else if i < 60 then
          Nat.lor (Nat.lor (Nat.land b c) (Nat.land b d)) (Nat.land c d)
        else Nat.xor (Nat.xor b c) d
      let k :=
        if i < 20 then 1518500249
        else if i < 40 then 1859775393
        else if i < 60 then 2400959708
        else 3395469782
      let temp := w32 (rotl 5 a + f + e + k + ws.getD i 0)
      (temp, a, rotl 30 b, c, d))
    (h0, h1, h2, h3, h4)
  match fin with
  | (a, b, c, d, e) =>
    (w32 (h0 + a), w32 (h1 + b), w32 (h2 + c), w32 (h3 + d), w32 (h4 + e))

/-- Big-endian 4-byte encoding of a 32-bit word. -/
def be4 (n : Nat) : List Nat :=
  [n / 16777216 % 256, n / 65536 % 256, n / 256 % 256, n % 256]

/-- SHA-1 of a byte list, as the 20 digest bytes. -/
def sha1 (msg : List Nat) : List Nat :=
  let st := (chunks64 (sha1Pad msg)).foldl sha1Block
    (1732584193, 4023233417, 2562383102, 271733878, 3285377520)
  match st with
  | (h0, h1, h2, h3, h4) => be4 h0 ++ be4 h1 ++ be4 h2 ++ be4 h3 ++ be4 h4

/-- Lowercase hexadecimal digit. -/
def hexChar (n : Nat) : Char :=
  if n < 10 then Char.ofNat (48 + n) else Char.ofNat (87 + n)

/-- Lowercase hexadecimal rendering of a byte list (`hexdigest`). -/
def hexDigest (bytes : List Nat) : String :=
  String.mk (List.flatten (bytes.map (fun b => [hexChar (b / 16), hexChar (b % 16)])))

/-- HMAC-SHA1 digest bytes, exactly as `hmac.new(key, msg, sha1).digest()`. -/
def hmacSha1 (key msg : List Nat) : List Nat :=
  let k0 := if 64 < key.length then sha1 key else key
  let k1 := k0 ++ List.replicate (64 - k0.length) 0
  let ipadded := k1.map (fun b => Nat.xor b 54)
  let opadded := k1.map (fun b => Nat.xor b 92)
  sha1 (opadded ++ sha1 (ipadded ++ msg))

/-- HMAC-SHA1 hex digest, as `hmac.new(key, msg, sha1).hexdigest()`. -/
def hmacSha1Hex (key msg : List Nat) : String := hexDigest (hmacSha1 key msg)

/-- UTF-8 bytes of the ASCII strings used as keys and payloads. -/
def strBytes (s : String) : List Nat := s.toList.map Char.toNat

/-! ## Signature checking (`get_payload_signature`, `signature_check`) -/

/-- Model of `get_payload_signature(key, payload)`. The Python body is
`hmac.new(b"key", msg=payload, digestmod=hashlib.sha1)`: it builds the mac
from the three-byte literal `b"key"` and never uses the `key` parameter. -/
def get_payload_signature (key : String) (payload : List Nat) : String :=
  hmacSha1Hex (strBytes "key") payload

/-- Model of `hmac.compare_digest` at the level of values (the Python
function additionally guarantees constant-time execution, which a value
model cannot express). -/
def compare_digest (a b : String) : Bool := a.toList == b.toList

/-- Model of Python `s.startswith(pre)`. -/
def pyStartsWith (s pre : String) : Bool :=
  s.toList.take pre.length == pre.toList

/-- Split a character list at every occurrence of `sep`. -/
def splitChars (sep : Char) : List Char → List (List Char)
  | [] => [[]]
  | c :: rest =>
    let r := splitChars sep rest
    if c == sep then [] :: r
    else
      match r with
      | h :: t => (c :: h) :: t
      | [] => [[c]]

/-- Model of Python `s.split(sep)` for a one-character separator. -/
def pySplit (s : String) (sep : Char) : List String :=
  (splitChars sep s.toList).map String.mk

/-- Model of `signature_check(key, post_signature, payload)`, abstracted
over the digest function so that theorems can state that a branch is taken
before any digest is computed. The two-variable unpacking of
`post_signature.split("=")` raises `ValueError` unless the split has
exactly two parts. -/
def signature_check_with (digest : String → List Nat → String)
    (key : String) (post_signature : String) (payload : List Nat) :
    Except PyErr Bool :=
  if pyStartsWith post_signature "sha1=" then
    match pySplit post_signature '=' with
    | [_sha_name, signature] =>
      if signature = "" then Except.ok false
      else Except.ok (compare_digest (digest key payload) signature)
    | _ => Except.error PyErr.valueError
  else Except.ok false

/-- Model of `signature_check` itself: the digest step is
`get_payload_signature`. -/
def signature_check (key : String) (post_signature : String)
    (payload : List Nat) : Except PyErr Bool :=
  signature_check_with get_payload_signature key post_signature payload

/-! ## Event classification (`is_desirable_issue_event`) -/

/-- The issue actions the module always processes. -/
def desirable_actions : List String :=
  ["opened", "closed", "reopened", "labeled", "unlabeled",
   "milestoned", "unmilestoned"]

/-- Truthiness of the optional change-set (`None` or a dictionary). -/
def optTruthy (changes : Option PyDict) : Bool :=
  match changes with
  | some d => !d.isEmpty
  | Option.none => false

/-- Model of `is_desirable_issue_event(action, changes)`. The `edited`
branch tests `changes.get("title")` for truthiness; all remaining paths
fall through to the final `return False` (the unknown-action branch only
logs). -/
def is_desirable_issue_event (action : String) (changes : Option PyDict) :
    Bool :=
  if desirable_actions.contains action then true
  else if (action == "edited") && optTruthy changes then
    truthy (pyGet (changes.getD []) "title")
  else false

/-! ## Payload extraction (`extract_issue_event_info`) -/

/-- The normalized issue-event record the extractor builds (its Python
counterpart is a plain dictionary with these eight keys). -/
structure IssueEventInfo where
  issue_id : PyVal
  title : PyVal
  created_at : PyVal
  milestone : PyVal
  actor : PyVal
  action : String
  details : PyVal
  received_at : PyVal

/-- Model of `extract_issue_event_info(payload, action, changes)`.
The second `elif` of the Python source is `action == ("milestoned" or
"demilestoned")`; the parenthesised `or` of two non-empty strings
evaluates to its first operand, so the branch tests `action ==
"milestoned"` only and `demilestoned` falls into the label branch. -/
def extract_issue_event_info (payload : PyVal) (action : String)
    (changes : Option PyDict) : Except PyErr IssueEventInfo := do
  let milestone ← (← payload.idx "issue").idx "milestone"
  let milestone_title ←
    if truthy milestone then milestone.attrGet "title"
    else pure PyVal.none
  let details ←
    if (["opened", "closed", "reopened", "edited"] : List String).contains action then
      match changes with
      | some ch =>
        if !ch.isEmpty && truthy (pyGet ch "title") then do
          pure (PyVal.dict [("old title", ← (← pySub ch "title").idx "from")])
        else pure PyVal.none
      | Option.none => pure PyVal.none
    else if action == "milestoned" then do
      pure (PyVal.dict
        [("milestone title",
          ← (← (← payload.idx "issue").idx "milestone").idx "title")])
    else do
      pure (PyVal.dict [("label name", ← (← payload.idx "label").idx "name")])
  let issue ← payload.idx "issue"
  let number ← issue.idx "number"
  let title ← issue.idx "title"
  let created ← issue.idx "created_at"
  let actor ← (← payload.idx "sender").idx "login"
  let updated ← issue.idx "updated_at"
  pure { issue_id := number, title := title, created_at := created,
         milestone := milestone_title, actor := actor, action := action,
         details := details, received_at := updated }

/-! ## The relational store (model of the SQLAlchemy entities of
`ochazuke/models.py`) -/

/-- A row of the issue table (`Issue`). -/
structure IssueRow where
  id : PyVal
  title : PyVal
  created_at : PyVal
  milestone_id : PyVal
  is_open : Bool

/-- A row of the label table (`Label`); `id` is assigned at insertion. -/
structure LabelRow where
  id : Option Int
  name : PyVal

/-- A row of the milestone table (`Milestone`); `id` is assigned at
insertion. -/
structure MilestoneRow where
  id : Option Int
  title : PyVal

/-- A row of the event table (`Event`); its auto-generated id is left
implicit. -/
structure EventRow where
  issue_id : PyVal
  actor : PyVal
  action : String
  details : PyVal
  received_at : PyVal

/-- The relational store. -/
structure Store where
  issues : List IssueRow
  labels : List LabelRow
  milestones : List MilestoneRow
  events : List EventRow

/-- An entity object handed to the session. -/
inductive Entity where
  | issue : IssueRow → Entity
  | event : EventRow → Entity
  | label : LabelRow → Entity
  | milestone : MilestoneRow → Entity

/-- Log lines the helpers emit (classified by their meaning). -/
inductive LogEntry where
  | noIssueFound (id : PyVal)
  | multipleIssuesFound (id : PyVal)
  | noLabelFound (name : PyVal)
  | multipleLabelsFound (name : PyVal)
  | noMilestoneFound (title : PyVal)
  | multipleMilestonesFound (title : PyVal)
  | writeSuccess (operation : String)
  | writeFailure (operation : String)

/-- Whether a log line reports an entity-lookup failure. -/
def LogEntry.isLookupFailure : LogEntry → Bool
  | LogEntry.noIssueFound _ => true
  | LogEntry.multipleIssuesFound _ => true
  | LogEntry.noLabelFound _ => true
  | LogEntry.multipleLabelsFound _ => true
  | LogEntry.noMilestoneFound _ => true
  | LogEntry.multipleMilestonesFound _ => true
  | _ => false

/-- The module-level operation constants `ADD`, `REMOVE`, `UPDATE`. -/
def ADD : String := "Add"

/-- The `REMOVE` operation constant. -/
def REMOVE : String := "Remove"

/-- The `UPDATE` operation constant. -/
def UPDATE : String := "Update"

/-- One successful commit: apply the staged/dirty change to the store, or
report failure (`Option.none`) on a constraint violation. The model keeps
the constraints of `ochazuke/models.py` that the analysed paths can hit:
the issue-table primary key, the `event.issue_id` foreign key, and the
unique milestone title. -/
def commitChange (operation : String) (e : Entity) (s : Store) :
    Option Store :=
  if operation = ADD then
    match e with
    | Entity.issue i =>
      if s.issues.any (fun r => sqlEq r.id i.id) then Option.none
      else some { s with issues := s.issues ++ [i] }
    | Entity.event ev =>
      if s.issues.any (fun r => sqlEq r.id ev.issue_id) then
        some { s with events := s.events ++ [ev] }
      else Option.none
    | Entity.label l =>
      some { s with labels :=
        s.labels ++ [{ l with id := some (Int.ofNat s.labels.length + 1) }] }
    | Entity.milestone m =>
      if s.milestones.any (fun r => sqlEq r.title m.title) then Option.none
      else some { s with milestones := s.milestones ++
        [{ m with id := some (Int.ofNat s.milestones.length + 1) }] }
  else if operation = UPDATE then
    match e with
    | Entity.issue i =>
      some { s with issues :=
        s.issues.map (fun r => if sqlEq r.id i.id then i else r) }
    | Entity.label l =>
      some { s with labels :=
        s.labels.map (fun r => if r.id = l.id then l else r) }
    | Entity.milestone m =>
      some { s with milestones :=
        s.milestones.map (fun r => if r.id = m.id then m else r) }
    | Entity.event _ => some s
  else some s

/-- Model of `make_change_to_database(operation, item)`. `fault` injects a
storage-layer failure at the commit step, which the code catches, rolls
back and logs. The `REMOVE` branch calls `db.session.remove(item)`; the
Flask-SQLAlchemy session is a `scoped_session`, whose `remove()` method
discards the current session and accepts no entity argument, so the call
raises `TypeError` before any commit is attempted (the deleting call
would be `db.session.delete`). `item` is `Option Entity` because the
callers can pass Python `None` after a failed lookup. -/
def make_change_to_database (fault : Bool) (operation : String)
    (item : Option Entity) (s : Store) :
    Except PyErr (Store × List LogEntry) :=
  if operation = REMOVE then Except.error PyErr.typeError
  else if operation = ADD && item.isNone then
    Except.error PyErr.typeError
  else
    let committed :=
      match item with
      | some e => if fault then Option.none else commitChange operation e s
      | Option.none => if fault then Option.none else some s
    match committed with
    | some s2 => Except.ok (s2, [LogEntry.writeSuccess operation])
    | Option.none => Except.ok (s, [LogEntry.writeFailure operation])

/-! ## Entity lookups -/

/-- Model of `get_issue_by_id(id)`. `Query.one()` raises `NoResultFound`
on zero rows and `MultipleResultsFound` on several; the first `except`
clause of the source names `sqlalchemy.orm.exc.NoResultsFound`, an
attribute that does not exist, so evaluating the handler raises
`AttributeError` for either failure instead of catching it. -/
def get_issue_by_id (id : PyVal) (s : Store) :
    Except PyErr (Option IssueRow × List LogEntry) :=
  match s.issues.filter (fun r => sqlEq r.id id) with
  | [r] => Except.ok (some r, [])
  | _ => Except.error PyErr.attributeError

/-- Model of `get_label_by_name(name)`: both except clauses are spelled
correctly, so the two lookup failures are caught, logged and turned into
`None`. -/
def get_label_by_name (name : PyVal) (s : Store) :
    Option LabelRow × List LogEntry :=
  match s.labels.filter (fun r => sqlEq r.name name) with
  | [] => (Option.none, [LogEntry.noLabelFound name])
  | [r] => (some r, [])
  | _ => (Option.none, [LogEntry.multipleLabelsFound name])

/-- Model of `get_milestone_by_title(title)`: both except clauses are
spelled correctly, so the two lookup failures are caught, logged and
turned into `None`. -/
def get_milestone_by_title (title : PyVal) (s : Store) :
    Option MilestoneRow × List LogEntry :=
  match s.milestones.filter (fun r => sqlEq r.title title) with
  | [] => (Option.none, [LogEntry.noMilestoneFound title])
  | [r] => (some r, [])
  | _ => (Option.none, [LogEntry.multipleMilestonesFound title])

/-! ## Reconciler operations -/

/-- Model of `add_new_event(info)`: build the `Event` object from the
normalized record and hand it to `make_change_to_database(ADD, event)`.
No lookup of the referenced issue is performed. -/
def add_new_event (fault : Bool) (info : IssueEventInfo) (s : Store) :
    Except PyErr (Store × List LogEntry) :=
  make_change_to_database fault ADD
    (some (Entity.event
      { issue_id := info.issue_id, actor := info.actor,
        action := info.action, details := info.details,
        received_at := info.received_at })) s

/-- Model of `issue_title_edit(info)`: fetch the issue by id, assign its
`title` attribute, persist an update. An assignment on a `None` lookup
result would raise `AttributeError` (the source has no `None` guard). -/
def issue_title_edit (fault : Bool) (info : IssueEventInfo) (s : Store) :
    Except PyErr (Store × List LogEntry) := do
  let (bug, log1) ← get_issue_by_id info.issue_id s
  match bug with
  | some b => do
    let (s2, log2) ←
      make_change_to_database fault UPDATE
        (some (Entity.issue { b with title := info.title })) s
    pure (s2, log1 ++ log2)
  | Option.none => Except.error PyErr.attributeError

/-- Model of `process_label_event_info(payload)`. On a name edit the
source reads the prior name from `payload["changes"]["name"]["from"]`
before resolving the stored label by it. -/
def process_label_event_info (fault : Bool) (payload : PyVal) (s : Store) :
    Except PyErr (Store × List LogEntry) := do
  let action ← payload.idx "action"
  let label_name ← (← payload.idx "label").idx "name"
  let changes ← payload.attrGet "changes"
  let prior_name ←
    if truthy changes then do
      let n ← changes.attrGet "name"
      if truthy n then do
        (← (← payload.idx "changes").idx "name").idx "from"
      else pure PyVal.none
    else pure PyVal.none
  if pyIsStr action "created" then
    make_change_to_database fault ADD
      (some (Entity.label { id := Option.none, name := label_name })) s
  else if truthy prior_name then do
    let (label, log1) := get_label_by_name prior_name s
    match label with
    | some l => do
      let (s2, log2) ←
        make_change_to_database fault UPDATE
          (some (Entity.label { l with name := label_name })) s
      pure (s2, log1 ++ log2)
    | Option.none => Except.error PyErr.attributeError
  else if pyIsStr action "deleted" then do
    let (label, log1) := get_label_by_name label_name s
    let (s2, log2) ←
      make_change_to_database fault REMOVE (label.map Entity.label) s
    pure (s2, log1 ++ log2)
  else pure (s, [])

/-- Model of `process_milestone_event_info(payload)`. Unlike the label
handler, the title edit sets `prior_title = payload["changes"]["title"]`
without descending into `["from"]`, so the whole change object is handed
to `get_milestone_by_title`. -/
def process_milestone_event_info (fault : Bool) (payload : PyVal)
    (s : Store) : Except PyErr (Store × List LogEntry) := do
  let action ← payload.idx "action"
  let milestone_title ← (← payload.idx "milestone").idx "title"
  let changes ← payload.attrGet "changes"
  let prior_title ←
    if truthy changes then do
      let t ← changes.attrGet "title"
      if truthy t then do
        (← payload.idx "changes").idx "title"
      else pure PyVal.none
    else pure PyVal.none
  if pyIsStr action "created" then
    make_change_to_database fault ADD
      (some (Entity.milestone { id := Option.none, title := milestone_title }))
      s
  else if truthy prior_title then do
    let (milestone, log1) := get_milestone_by_title prior_title s
    match milestone with
    | some m => do
      let (s2, log2) ←
        make_change_to_database fault UPDATE
          (some (Entity.milestone { m with title := milestone_title })) s
      pure (s2, log1 ++ log2)
    | Option.none => Except.error PyErr.attributeError
  else if pyIsStr action "deleted" then do
    let (milestone, log1) := get_milestone_by_title milestone_title s
    let (s2, log2) ←
      make_change_to_database fault REMOVE (milestone.map Entity.milestone) s
    pure (s2, log1 ++ log2)
  else pure (s, [])

/-! ## Fixtures used by the theorems below -/

/-- The empty store. -/
def storeEmpty : Store :=
  { issues := [], labels := [], milestones := [], events := [] }

/-- A fixture issues-event payload whose issue carries a milestone and
which, as in real GitHub `demilestoned` deliveries, has no `label` key. -/
def issuePayloadMilestone : PyVal :=
  PyVal.dict
    [("issue", PyVal.dict
        [("milestone", PyVal.dict [("title", PyVal.str "needsdiagnosis")]),
         ("number", PyVal.int 2475),
         ("title", PyVal.str "Cannot log in to www.example.com!"),
         ("created_at", PyVal.str "2018-07-30T13:22:36Z"),
         ("updated_at", PyVal.str "2018-08-03T09:17:20Z")]),
     ("sender", PyVal.dict [("login", PyVal.str "laghee")])]

/-- A normalized record for an `edited` event on issue 2475. -/
def infoEdited : IssueEventInfo :=
  { issue_id := PyVal.int 2475,
    title := PyVal.str "Cannot log in to www.example.com!",
    created_at := PyVal.str "2018-07-30T13:22:36Z",
    milestone := PyVal.str "needsdiagnosis",
    actor := PyVal.str "laghee",
    action := "edited",
    details := PyVal.dict [("old title", PyVal.str "Cant log in")],
    received_at := PyVal.str "2018-08-03T09:17:20Z" }

/-- A stored row for issue 2475. -/
def issueRow2475 : IssueRow :=
  { id := PyVal.int 2475, title := PyVal.str "Cant log in",
    created_at := PyVal.str "2018-07-30T13:22:36Z",
    milestone_id := PyVal.int 17, is_open := true }

/-- A normalized record for a `closed` event on issue 5. -/
def infoClosed5 : IssueEventInfo :=
  { issue_id := PyVal.int 5, title := PyVal.str "T",
    created_at := PyVal.str "C", milestone := PyVal.none,
    actor := PyVal.str "laghee", action := "closed",
    details := PyVal.none, received_at := PyVal.str "R" }

/-- A fixture `label` `edited` payload whose change-set carries the prior
name, as GitHub sends it. -/
def labelEditPayload (oldName newName : String) : PyVal :=
  PyVal.dict
    [("action", PyVal.str "edited"),
     ("label", PyVal.dict [("name", PyVal.str newName)]),
     ("changes", PyVal.dict
        [("name", PyVal.dict [("from", PyVal.str oldName)])])]

/-- A fixture `milestone` `edited` payload renaming `needstaco` to
`needsdietcoke`, with the change-set GitHub sends. -/
def milestoneRenamePayload : PyVal :=
  PyVal.dict
    [("action", PyVal.str "edited"),
     ("milestone", PyVal.dict [("title", PyVal.str "needsdietcoke")]),
     ("changes", PyVal.dict
        [("title", PyVal.dict [("from", PyVal.str "needstaco")])])]

/-- A store holding exactly the milestone `needstaco`. -/
def storeMilestoneTaco : Store :=
  { issues := [], labels := [],
    milestones := [{ id := some 1, title := PyVal.str "needstaco" }],
    events := [] }

/-- A store holding exactly the label `old`. -/
def storeLabelOld : Store :=
  { issues := [], labels := [{ id := some 1, name := PyVal.str "old" }],
    milestones := [], events := [] }

/-- A change-set that contains a `title` key mapped to a falsy value. -/
def changesTitleFalsy : PyDict := [("title", PyVal.dict [])]

/-! ## Helper lemmas -/

/-- Reduction of a successful `Except` bind. -/
theorem exbind_ok {α β : Type} (a : α) (f : α → Except PyErr β) :
    (Except.ok a >>= f) = f a := rfl

/-- Reduction of `pure` in the `Except` monad. -/
theorem expure_def {α : Type} (a : α) :
    (pure a : Except PyErr α) = Except.ok a := rfl

/-! ## C1 -/

set_option maxRecDepth 400000 in
/-- C1: the claim says `signature_check` verifies the genuine signature
`"sha1=" + hex(HMAC-SHA1(K, B))` for every secret `K`. It does not:
`get_payload_signature` computes the mac from the literal `b"key"` and
ignores its `key` parameter, so the genuine signature under the secret
`"secret"` is rejected, while verification succeeds exactly when the
presented digest is the one keyed by the string `key`. -/
theorem C1_signature_check_hardcoded_key :
    signature_check "secret"
        ("sha1=" ++ hmacSha1Hex (strBytes "secret") (strBytes "x"))
        (strBytes "x")
      = Except.ok false
    ∧ signature_check "key"
        ("sha1=" ++ hmacSha1Hex (strBytes "key") (strBytes "x"))
        (strBytes "x")
      = Except.ok true :=
  ⟨rfl, rfl⟩

/-! ## C2 -/

/-- C2: the claim says `details` holds the milestone title for both
`milestoned` and `demilestoned` actions. The code compares the action to
the Python expression `("milestoned" or "demilestoned")`, which evaluates
to `"milestoned"`, so a `demilestoned` event falls into the label branch
and raises `KeyError("label")` on a payload without a label key, while
the same payload with action `milestoned` extracts the milestone title as
specified. -/
theorem C2_demilestoned_takes_label_branch :
    extract_issue_event_info issuePayloadMilestone "milestoned" Option.none
      = Except.ok
          { issue_id := PyVal.int 2475,
            title := PyVal.str "Cannot log in to www.example.com!",
            created_at := PyVal.str "2018-07-30T13:22:36Z",
            milestone := PyVal.str "needsdiagnosis",
            actor := PyVal.str "laghee",
            action := "milestoned",
            details := PyVal.dict
              [("milestone title", PyVal.str "needsdiagnosis")],
            received_at := PyVal.str "2018-08-03T09:17:20Z" }
    ∧ extract_issue_event_info issuePayloadMilestone "demilestoned" Option.none
      = Except.error (PyErr.keyError "label") :=
  ⟨rfl, rfl⟩

/-! ## C3 -/

/-- C3: the claim says a milestone rename resolves the stored milestone by
the prior title string. The code sets `prior_title` to the whole change
object `payload["changes"]["title"]` (never reading its `"from"` entry),
so the lookup of the dictionary value matches no stored title even though
a milestone named `needstaco` is present: `get_milestone_by_title`
returns `None`, and the subsequent `.title` assignment raises
`AttributeError` instead of renaming and persisting an update. -/
theorem C3_milestone_rename_lookup_fails :
    process_milestone_event_info false milestoneRenamePayload storeMilestoneTaco
      = Except.error PyErr.attributeError :=
  rfl

/-! ## C4 -/

/-- C4: the claim says a failed issue lookup is caught and logged inside
`get_issue_by_id` and the mutation is skipped without an exception. The
first except clause names `sqlalchemy.orm.exc.NoResultsFound`, which does
not exist (the class is `NoResultFound`), so both the no-result and the
multiple-result failure escape as `AttributeError`, and
`issue_title_edit` on a missing issue id raises instead of completing. -/
theorem C4_missing_issue_lookup_raises :
    get_issue_by_id (PyVal.int 2475) storeEmpty
      = Except.error PyErr.attributeError
    ∧ issue_title_edit false infoEdited storeEmpty
      = Except.error PyErr.attributeError
    ∧ get_issue_by_id (PyVal.int 2475)
        { storeEmpty with issues := [issueRow2475, issueRow2475] }
      = Except.error PyErr.attributeError :=
  ⟨rfl, rfl, rfl⟩

/-! ## C5 -/

/-- C5 counterexample: the claim says an `edited` event is desirable if
and only if the change-set contains a `title` key. A change-set that maps
`"title"` to a falsy value (here the empty dictionary) contains the key
yet is classified as not desirable. -/
theorem C5_counterexample_falsy_title_key :
    (List.lookup "title" changesTitleFalsy).isSome = true
    ∧ is_desirable_issue_event "edited" (some changesTitleFalsy) = false :=
  ⟨rfl, rfl⟩

/-- C5 amended: the seven listed actions are always desirable; `edited`
is desirable if and only if the change-set maps `"title"` to a truthy
value; every other action (including `assigned` and `unassigned`) is not
desirable. -/
theorem C5_classification_amended :
    (∀ (changes : Option PyDict) (a : String), a ∈ desirable_actions →
      is_desirable_issue_event a changes = true)
    ∧ (∀ (changes : Option PyDict),
      is_desirable_issue_event "edited" changes = true
        ↔ ∃ d, changes = some d ∧ truthy (pyGet d "title") = true)
    ∧ (∀ (changes : Option PyDict) (a : String),
      a ∉ desirable_actions → a ≠ "edited" →
      is_desirable_issue_event a changes = false) := by
  refine ⟨?_, ?_, ?_⟩
  · intro changes a ha
    fin_cases ha <;> rfl
  · intro changes
    cases changes with
    | none => simp [is_desirable_issue_event, optTruthy, desirable_actions]
    | some d =>
      cases d with
      | nil =>
        simp [is_desirable_issue_event, optTruthy, desirable_actions,
          pyGet, truthy, List.lookup]
      | cons hd tl =>
        simp [is_desirable_issue_event, optTruthy, desirable_actions]
  · intro changes a h1 h2
    have hc : desirable_actions.contains a = false := by
      cases hcc : desirable_actions.contains a
      · rfl
      · exact absurd (by simpa using hcc) h1
    simp [is_desirable_issue_event, hc, h1, h2]

/-- C5 witness: the amended classification evaluated at three concrete
inputs. -/
theorem C5_classification_witness :
    is_desirable_issue_event "opened" Option.none = true
    ∧ is_desirable_issue_event "edited"
        (some [("title", PyVal.dict [("from", PyVal.str "t")])]) = true
    ∧ is_desirable_issue_event "assigned" Option.none = false :=
  ⟨C5_classification_amended.1 Option.none "opened" (by decide),
   (C5_classification_amended.2.1
      (some [("title", PyVal.dict [("from", PyVal.str "t")])])).mpr
     ⟨[("title", PyVal.dict [("from", PyVal.str "t")])], rfl, rfl⟩,
   C5_classification_amended.2.2 Option.none "assigned" (by decide) (by decide)⟩

/-! ## C6 -/

/-- C6 counterexample: the claim says `signature_check` never throws and
returns `false` on malformed values with extra `=` separators. The
two-variable unpacking of `post_signature.split("=")` raises `ValueError`
on `"sha1=a=b"`. -/
theorem C6_counterexample_extra_equals_raises :
    signature_check "k" "sha1=a=b" (strBytes "")
      = Except.error PyErr.valueError :=
  rfl

/-- C6 amended: `signature_check` returns a boolean without throwing
whenever the presented value lacks the `"sha1="` tag (then it is `false`)
or splits at `"="` into exactly two parts; a value with additional `=`
separators raises `ValueError` instead. -/
theorem C6_signature_check_total_amended (key sig : String)
    (payload : List Nat) :
    (pyStartsWith sig "sha1=" = false →
      signature_check key sig payload = Except.ok false)
    ∧ ((pySplit sig '=').length = 2 →
      ∃ b, signature_check key sig payload = Except.ok b) := by
  constructor
  · intro hx
    unfold signature_check signature_check_with
    simp [hx]
  · intro hlen
    obtain ⟨x, y, e⟩ : ∃ x y, pySplit sig '=' = [x, y] := by
      rcases el : pySplit sig '=' with _ | ⟨x, _ | ⟨y, _ | ⟨z, tl⟩⟩⟩
      · rw [el] at hlen; simp at hlen
      · rw [el] at hlen; simp at hlen
      · exact ⟨x, y, rfl⟩
      · rw [el] at hlen; simp at hlen
    unfold signature_check signature_check_with
    by_cases hb : pyStartsWith sig "sha1=" = true
    · rw [e]
      by_cases hy : y = ""
      · exact ⟨false, by simp [hb, hy]⟩
      · exact ⟨compare_digest (get_payload_signature key payload) y,
          by simp [hb, hy]⟩
    · exact ⟨false, by simp [hb]⟩

/-- C6 witness: the amended totality statement evaluated at a value
without the tag and at a well-formed signature header. -/
theorem C6_signature_check_total_witness :
    signature_check "k" "nope" (strBytes "") = Except.ok false
    ∧ ∃ b, signature_check "k" "sha1=abc" (strBytes "") = Except.ok b :=
  ⟨(C6_signature_check_total_amended "k" "nope" (strBytes "")).1 rfl,
   (C6_signature_check_total_amended "k" "sha1=abc" (strBytes "")).2 rfl⟩

/-! ## C7 -/

/-- C7: a `label.edited` delivery whose change-set records the prior name
resolves the stored label by that old name — for any store in which
exactly one label carries the old name, regardless of what else it holds —
updates that row in place, and persists the new name. -/
theorem C7_label_rename_resolves_old_name (oldName newName : String)
    (i : Int) (s : Store)
    (hold : s.labels.filter (fun r => sqlEq r.name (PyVal.str oldName))
      = [{ id := some i, name := PyVal.str oldName }])
    (hne : oldName ≠ "") :
    process_label_event_info false (labelEditPayload oldName newName) s
      = Except.ok
          ({ s with labels := s.labels.map (fun r =>
              if r.id = some i then { id := some i, name := PyVal.str newName }
              else r) },
           [LogEntry.writeSuccess UPDATE])
    ∧ ({ id := some i, name := PyVal.str newName } : LabelRow)
        ∈ s.labels.map (fun r =>
            if r.id = some i then { id := some i, name := PyVal.str newName }
            else r) := by
  have hlab : get_label_by_name (PyVal.str oldName) s
      = (some { id := some i, name := PyVal.str oldName }, []) := by
    unfold get_label_by_name; rw [hold]
  constructor
  · simp [process_label_event_info, labelEditPayload, PyVal.idx,
      PyVal.attrGet, pySub, pyGet, pyIsStr, truthy, optTruthy, List.lookup,
      hlab, hne, make_change_to_database, commitChange, UPDATE, REMOVE, ADD,
      exbind_ok, expure_def]
  · have hmem : ({ id := some i, name := PyVal.str oldName } : LabelRow)
        ∈ s.labels := by
      apply List.mem_of_mem_filter
        (p := fun r => sqlEq r.name (PyVal.str oldName))
      rw [hold]
      exact List.mem_singleton.mpr rfl
    have hmap := List.mem_map_of_mem (fun r =>
      if r.id = some i
      then ({ id := some i, name := PyVal.str newName } : LabelRow)
      else r) hmem
    simpa using hmap

/-- C7 witness: the rename applied to a store holding exactly the label
`old`. -/
theorem C7_label_rename_witness :
    process_label_event_info false (labelEditPayload "old" "new-name")
        storeLabelOld
      = Except.ok
          ({ storeLabelOld with labels := storeLabelOld.labels.map (fun r =>
              if r.id = some 1
              then { id := some 1, name := PyVal.str "new-name" }
              else r) },
           [LogEntry.writeSuccess UPDATE])
    ∧ ({ id := some 1, name := PyVal.str "new-name" } : LabelRow)
        ∈ storeLabelOld.labels.map (fun r =>
            if r.id = some 1
            then { id := some 1, name := PyVal.str "new-name" }
            else r) :=
  C7_label_rename_resolves_old_name "old" "new-name" 1 storeLabelOld rfl
    (by decide)

/-! ## C8 -/

/-- C8: the claim says every Add, Update or Remove rolls back on commit
failure without exposing an exception. With a fault injected at the
commit step, Add and Update indeed roll back (the store is returned
unchanged) and report failure only through the log; but every Remove
raises `TypeError` out of `make_change_to_database` before any commit,
because `db.session.remove(item)` calls the scoped session `remove()`,
which accepts no entity argument (deletion would be `session.delete`). -/
theorem C8_commit_failure_rollback_and_remove_raises :
    (∀ (e : Entity) (s : Store),
      make_change_to_database true ADD (some e) s
        = Except.ok (s, [LogEntry.writeFailure ADD]))
    ∧ (∀ (e : Entity) (s : Store),
      make_change_to_database true UPDATE (some e) s
        = Except.ok (s, [LogEntry.writeFailure UPDATE]))
    ∧ (∀ (fault : Bool) (item : Option Entity) (s : Store),
      make_change_to_database fault REMOVE item s
        = Except.error PyErr.typeError) :=
  ⟨fun _ _ => rfl, fun _ _ => rfl, fun _ _ _ => rfl⟩

/-! ## C9 -/

/-- C9 counterexample: the claim says that when the referenced issue does
not exist the Reconciler logs a lookup failure and inserts no dangling
event. Running `add_new_event` for issue 5 against the empty store leaves
the store unchanged, but the only log line is a write failure — no lookup
is performed and no lookup failure is logged. -/
theorem C9_counterexample_no_lookup_logged :
    add_new_event false infoClosed5 storeEmpty
      = Except.ok (storeEmpty, [LogEntry.writeFailure ADD])
    ∧ ([LogEntry.writeFailure ADD].any LogEntry.isLookupFailure) = false :=
  ⟨rfl, rfl⟩

/-- C9 amended: `add_new_event` performs no issue lookup; when no stored
issue matches the issue id of the event, the commit of the insert fails on the
`issue_id` foreign key (or on the injected fault) and is rolled back, so
no dangling event row persists, and the failure is logged as a write
failure rather than a lookup failure. -/
theorem C9_missing_issue_event_rolled_back (fault : Bool)
    (info : IssueEventInfo) (s : Store)
    (h : s.issues.any (fun r => sqlEq r.id info.issue_id) = false) :
    add_new_event fault info s = Except.ok (s, [LogEntry.writeFailure ADD]) := by
  cases fault with
  | true => rfl
  | false =>
    simp [add_new_event, make_change_to_database, commitChange, ADD, REMOVE, h]

/-- C9 witness: the rolled-back insert on the empty store. -/
theorem C9_missing_issue_event_witness :
    add_new_event true infoClosed5 storeEmpty
      = Except.ok (storeEmpty, [LogEntry.writeFailure ADD]) :=
  C9_missing_issue_event_rolled_back true infoClosed5 storeEmpty rfl

/-! ## C10 -/

/-- C10: a presented value of exactly `"sha1="` is rejected before any
digest is computed: for every digest function the check short-circuits on
the empty signature part and returns `false`, and so does
`signature_check` itself for every key and payload. -/
theorem C10_empty_digest_short_circuits :
    (∀ (digest : String → List Nat → String) (key : String)
      (payload : List Nat),
      signature_check_with digest key "sha1=" payload = Except.ok false)
    ∧ (∀ (key : String) (payload : List Nat),
      signature_check key "sha1=" payload = Except.ok false) :=
  ⟨fun _ _ _ => rfl, fun _ _ => rfl⟩

end Ochazuke
